import Mathlib

/-!
Shallow embedding of the EV-prezentace repository (two source files:
`scroll-distortion-noloop.js`, the transition engine, and
`webflow-controller.js`, the DOM controller) together with theorems
settling the frozen claims about them.

Modelling conventions:
* JavaScript numbers are modelled as exact rationals (`ℚ`); array indices
  that the code manipulates as plain numbers are `ℤ`, natural counters are
  `ℕ`.  Wall-clock time (`Date.now()`, milliseconds) is passed explicitly
  as a `ℚ` argument to every function that reads it.
* A texture handle is opaque (`Texture := ℕ`); the sparse JS arrays
  `this.textures`, `this.textureResolutions`, `this.displacementTextures`
  become `List (Option _)` with JS-style out-of-range reads returning
  `none` and JS-style index assignment extending the list with `none`
  holes.
* The shader material is `Option Uniforms`: `none` before
  `createMaterial` has run, `some u` afterwards, `u` holding the uniform
  values the code writes.  (`createMesh`, the render loop and resize
  handling only touch render geometry, which no claim concerns.)
* Callbacks are modelled observationally: `imageChangeCalls` logs every
  invocation of `config.onImageChange`, and `completionCallbackRuns`
  counts invocations of a completion callback passed as a second argument
  to `setImages`.  The engine's `setImages(imageUrls)` declares a single
  parameter, so by JS call semantics a second argument is bound to
  nothing; accordingly no modelled operation touches this counter.
* Asynchronous texture loading is modelled by explicit load-event step
  functions folded over a list of load outcomes, mirroring the loader
  success/error callbacks in the source.
-/

namespace ScrollDistortion

/-- Opaque texture handle (a loaded `THREE.Texture`). -/
abbrev Texture := ℕ

/-- A texture's natural resolution `(width, height)` (`THREE.Vector2`). -/
abbrev Res := ℚ × ℚ

/-- The shader-material uniforms created in `createMaterial`
(`scroll-distortion-noloop.js`, lines 259-275). -/
structure Uniforms where
  texture1 : Option Texture
  texture2 : Option Texture
  displacement : Option Texture
  progress : ℚ
  intensity : ℚ
  resolution : Res
  texRes1 : Res
  texRes2 : Res
deriving DecidableEq

/-- State of a `ScrollDistortionEffect` instance: the constructor-set
configuration fields plus the mutable instance fields the methods touch.
`startTime` and `targetIndex` are `undefined` in JS until the first
accepted transition; they are modelled as plain values (`0` initially)
because no guarded path reads them before they are first assigned.
`imageChangeCalls` and `completionCallbackRuns` are observation logs for
the two callbacks (see the module docstring). -/
structure EngineState where
  images : List String
  displacementImages : List String
  intensity : ℚ
  transitionSpeed : ℚ
  hasOnImageChange : Bool
  parentWidth : ℚ
  parentHeight : ℚ
  currentIndex : ℤ
  isTransitioning : Bool
  startTime : ℚ
  targetIndex : ℤ
  textures : List (Option Texture)
  textureResolutions : List (Option Res)
  displacementTextures : List (Option Texture)
  displacementTexture : Option Texture
  material : Option Uniforms
  pendingInitialIndex : Option ℤ
  imageChangeCalls : List ℤ
  completionCallbackRuns : ℕ
deriving DecidableEq

/-- JS array read `arr[i]` on a sparse array of (possibly missing)
entries: out-of-range and negative indices give `undefined` (`none`). -/
def listGet (l : List (Option α)) (i : ℤ) : Option α :=
  if 0 ≤ i then l.getD i.toNat none else none

/-- JS array write `arr[i] = v`: extends the array with holes when `i`
is past the current length. -/
def listSet (l : List (Option α)) (i : ℕ) (v : Option α) : List (Option α) :=
  let l' := if l.length ≤ i then l ++ List.replicate (i + 1 - l.length) none else l
  l'.set i v

/-- `getDisplacementIndex(targetIndex)` (lines 163-173): displacement
bucket for a target image index. -/
def getDisplacementIndex (targetIndex : ℤ) : ℕ :=
  if 0 ≤ targetIndex ∧ targetIndex ≤ 2 then 0
  else if 3 ≤ targetIndex ∧ targetIndex ≤ 6 then 1
  else if 7 ≤ targetIndex ∧ targetIndex ≤ 10 then 2
  else 0

/-- `easeInOut(t)` (lines 296-298). -/
def easeInOut (t : ℚ) : ℚ :=
  if t < 1/2 then 2 * t * t else -1 + (4 - 2 * t) * t

/-- `easeOut(t)` (lines 300-302): cubic ease-out `1 - (1-t)^3`. -/
def easeOut (t : ℚ) : ℚ := 1 - (1 - t) ^ 3

/-- `computeOverscanFactor()` (lines 289-293): `1.05 + min(0.6,
intensity * 1.2)`, reading `this.config.intensity`. -/
def computeOverscanFactor (s : EngineState) : ℚ :=
  let base : ℚ := 1.05
  let extra : ℚ := min 0.6 (s.intensity * 1.2)
  base + extra

/-- `getCurrentIndex()` (lines 504-506). -/
def getCurrentIndex (s : EngineState) : ℤ := s.currentIndex

/-- `isInTransition()` (lines 509-511). -/
def isInTransition (s : EngineState) : Bool := s.isTransitioning

/-- One frame of `animateProgress()` (lines 367-393) executed at
wall-clock time `now` (ms): linear time `min(elapsed/duration, 1)`,
cubic ease-out, write into the progress uniform; on reaching `1`, commit
`currentIndex := targetIndex`, clear the flag, reset progress to `0` and
re-bind the texture pair `(currentIndex, min(currentIndex+1, last))`
(the `|| old` fallbacks keep a resolution uniform when the cache entry is
missing).  The real method dereferences `this.material.uniforms`
unconditionally and is only ever invoked while a material exists; the
`none` branch is that unreachable crash case, modelled as a no-op. -/
def animateProgress (now : ℚ) (s : EngineState) : EngineState :=
  match s.material with
  | none => s
  | some u =>
    let elapsed := (now - s.startTime) / 1000
    let duration := s.transitionSpeed
    let t := min (elapsed / duration) 1
    let te := easeOut t
    if te < 1 then
      { s with material := some { u with progress := te } }
    else
      let nextIndex := min (s.targetIndex + 1) ((s.images.length : ℤ) - 1)
      { s with
        currentIndex := s.targetIndex
        isTransitioning := false
        material := some { u with
          progress := 0
          texture1 := listGet s.textures s.targetIndex
          texture2 := listGet s.textures nextIndex
          texRes1 := (listGet s.textureResolutions s.targetIndex).getD u.texRes1
          texRes2 := (listGet s.textureResolutions nextIndex).getD u.texRes2 } }

/-- `transitionTo(targetIndex)` (lines 331-365) at wall-clock time `now`
(ms), including the synchronous first `animateProgress()` call the
method ends with.  Guards: already transitioning, target equals current,
no material, or target texture unloaded — each returns with no state
change.  On acceptance: set the flag/start time/target, switch the
displacement bucket (when that bucket's texture is loaded), bind the
from/to textures and resolutions, invoke `onImageChange`. -/
def transitionTo (targetIndex : ℤ) (now : ℚ) (s : EngineState) : EngineState :=
  if s.isTransitioning ∨ targetIndex = s.currentIndex ∨ s.material = none then s
  else if listGet s.textures targetIndex = none then s
  else
    match s.material with
    | none => s
    | some u =>
      let dispTex := s.displacementTextures.getD (getDisplacementIndex targetIndex) none
      let newDisp := match dispTex with
        | some dt => some dt
        | none => s.displacementTexture
      let u1 := match dispTex with
        | some dt => { u with displacement := some dt }
        | none => u
      let u2 := { u1 with
        texture1 := listGet s.textures s.currentIndex
        texture2 := listGet s.textures targetIndex
        texRes1 := (listGet s.textureResolutions s.currentIndex).getD u1.texRes1
        texRes2 := (listGet s.textureResolutions targetIndex).getD u1.texRes2 }
      let s1 := { s with
        isTransitioning := true
        startTime := now
        targetIndex := targetIndex
        displacementTexture := newDisp
        material := some u2
        imageChangeCalls :=
          if s.hasOnImageChange then s.imageChangeCalls ++ [targetIndex]
          else s.imageChangeCalls }
      animateProgress now s1

/-- `transitionToNext()` (lines 305-315): no wraparound at the last
index. -/
def transitionToNext (now : ℚ) (s : EngineState) : EngineState :=
  if s.isTransitioning ∨ s.material = none then s
  else if s.currentIndex ≥ (s.images.length : ℤ) - 1 then s
  else transitionTo (s.currentIndex + 1) now s

/-- `transitionToPrevious()` (lines 318-328): no wraparound at index
`0`. -/
def transitionToPrevious (now : ℚ) (s : EngineState) : EngineState :=
  if s.isTransitioning ∨ s.material = none then s
  else if s.currentIndex ≤ 0 then s
  else transitionTo (s.currentIndex - 1) now s

/-- JS falsiness of `this.pendingInitialIndex` in the guard
`if (!this.pendingInitialIndex)` (line 592): `undefined` and `0` are
falsy, every other recorded index is truthy. -/
def pendingFalsy (p : Option ℤ) : Bool :=
  match p with
  | none => true
  | some n => n == 0

/-- `applyInitialImage(index)` (lines 598-622): guarded on the material
and the texture at the raw `index`; clamps, switches the displacement
bucket, binds the from texture, binds the to texture only when the
texture at `min(index+1, last)` is loaded, resets progress and commits
`currentIndex`. -/
def applyInitialImage (index : ℤ) (s : EngineState) : EngineState :=
  match s.material, listGet s.textures index with
  | some u, some _ =>
    let safeIndex := max 0 (min index ((s.images.length : ℤ) - 1))
    let dispTex := s.displacementTextures.getD (getDisplacementIndex safeIndex) none
    let newDisp := match dispTex with
      | some dt => some dt
      | none => s.displacementTexture
    let u1 := match dispTex with
      | some dt => { u with displacement := some dt }
      | none => u
    let u2 := { u1 with texture1 := listGet s.textures safeIndex }
    let nextIndex := min (safeIndex + 1) ((s.images.length : ℤ) - 1)
    let u3 := match listGet s.textures nextIndex with
      | some t2 => { u2 with
          texture2 := some t2
          texRes2 := (listGet s.textureResolutions nextIndex).getD (1920, 1080) }
      | none => u2
    let u4 := { u3 with
      texRes1 := (listGet s.textureResolutions safeIndex).getD (1920, 1080)
      progress := 0 }
    { s with
      material := some u4
      displacementTexture := newDisp
      currentIndex := safeIndex }
  | _, _ => s

/-- `setInitialImage(index)` (lines 580-595): clamp, commit
`currentIndex` unconditionally, then either apply immediately (material
present, non-empty cache, clamped texture loaded) or record the request —
the latter only when `this.pendingInitialIndex` is JS-falsy. -/
def setInitialImage (index : ℤ) (s : EngineState) : EngineState :=
  let safeIndex := max 0 (min index ((s.images.length : ℤ) - 1))
  let s1 := { s with currentIndex := safeIndex }
  if s1.material.isSome ∧ s1.textures ≠ [] ∧ (listGet s1.textures safeIndex).isSome then
    applyInitialImage safeIndex s1
  else if pendingFalsy s1.pendingInitialIndex then
    { s1 with pendingInitialIndex := some safeIndex }
  else s1

/-- `onTexturesLoaded()` (lines 143-157): once the first two image
textures and a displacement are present and no material exists yet,
create the material (`createMaterial`, lines 259-275) and apply a
pending initial-image request if one was recorded. -/
def onTexturesLoaded (s : EngineState) : EngineState :=
  if s.textures.getD 0 none = none ∨ s.textures.getD 1 none = none ∨
      s.displacementTexture = none ∨ s.material.isSome then s
  else
    let u : Uniforms := {
      texture1 := s.textures.getD 0 none
      texture2 := s.textures.getD 1 none
      displacement := s.displacementTexture
      progress := 0
      intensity := s.intensity
      resolution := (s.parentWidth, s.parentHeight)
      texRes1 := (s.textureResolutions.getD 0 none).getD (1920, 1080)
      texRes2 := (s.textureResolutions.getD 1 none).getD (1920, 1080) }
    let s1 := { s with material := some u }
    match s1.pendingInitialIndex with
    | some p => { applyInitialImage p s1 with pendingInitialIndex := none }
    | none => s1

/-- Closure state of one `setImages` call: the engine plus the captured
`loadedImageCount` and `totalImages` variables (lines 534-536). -/
structure SetImagesBatch where
  state : EngineState
  loadedImageCount : ℕ
  totalImages : ℕ
deriving DecidableEq

/-- Loader outcome for one entry of a `setImages` batch: success carries
the decoded texture handle and its optional natural resolution
(`texture.image` may be absent); failure is the error callback, which
only logs (lines 571-575). -/
inductive LoadEvent where
  | success (index : ℕ) (tex : Texture) (res : Option Res)
  | failure (index : ℕ)
deriving DecidableEq

/-- Synchronous part of `setImages(imageUrls)` (lines 514-537): after
validating the argument, dispose the old textures, reset both caches and
replace `config.images`.  The method declares exactly one parameter; a
completion callback passed by a caller (as the revised controller's
`initEngine` does at lines 403-408) is bound to nothing. -/
def setImagesInit (imageUrls : List String) (s : EngineState) : SetImagesBatch :=
  { state := { s with textures := [], textureResolutions := [], images := imageUrls }
    loadedImageCount := 0
    totalImages := imageUrls.length }

/-- Per-image loader success callback inside `setImages` (lines
541-570): store the texture and resolution, bump the captured counter,
and once at least two images plus a displacement are available either
apply a pending initial image, re-bind the live material to indices `0`
and `min(1, total-1)`, or run `onTexturesLoaded`. -/
def setImagesLoadSuccess (index : ℕ) (tex : Texture) (res : Option Res)
    (b : SetImagesBatch) : SetImagesBatch :=
  let s0 := b.state
  let s1 := { s0 with
    textures := listSet s0.textures index (some tex)
    textureResolutions := match res with
      | some r => listSet s0.textureResolutions index (some r)
      | none => s0.textureResolutions }
  let cnt := b.loadedImageCount + 1
  let s2 :=
    if 2 ≤ cnt ∧ s1.displacementTexture.isSome then
      match s1.material with
      | some u =>
        match s1.pendingInitialIndex with
        | some p => { applyInitialImage p s1 with pendingInitialIndex := none }
        | none =>
          let secondIndex : ℕ := min 1 (b.totalImages - 1)
          { s1 with material := some { u with
              texture1 := s1.textures.getD 0 none
              texture2 := s1.textures.getD secondIndex none
              texRes1 := (s1.textureResolutions.getD 0 none).getD (1920, 1080)
              texRes2 := (s1.textureResolutions.getD secondIndex none).getD (1920, 1080) } }
      | none => onTexturesLoaded s1
    else s1
  { state := s2
    loadedImageCount := cnt
    totalImages := b.totalImages }

/-- A whole `setImages(imageUrls)` call observed to completion: the
synchronous part followed by the per-entry loader callbacks in arrival
order (`events` lists one outcome per attempted load; an invalid empty
url list is rejected up front with an error log, lines 515-518). -/
def setImagesRun (imageUrls : List String) (events : List LoadEvent)
    (s : EngineState) : EngineState :=
  if imageUrls = [] then s
  else
    (events.foldl
      (fun b e => match e with
        | .success i t r => setImagesLoadSuccess i t r b
        | .failure _ => b)
      (setImagesInit imageUrls s)).state

/-- A concrete uniform set (material ready) used by the closed
instantiation theorems. -/
def sampleUniforms : Uniforms :=
  { texture1 := some 10
    texture2 := some 11
    displacement := some 20
    progress := 0
    intensity := 1
    resolution := (800, 600)
    texRes1 := (1920, 1080)
    texRes2 := (1920, 1080) }

/-- A concrete engine state (material ready, three textures loaded) used
by the closed instantiation theorems. -/
def sampleEngine : EngineState :=
  { images := ["a.jpg", "b.jpg", "c.jpg"]
    displacementImages := ["d0.png"]
    intensity := 1
    transitionSpeed := 2
    hasOnImageChange := true
    parentWidth := 800
    parentHeight := 600
    currentIndex := 0
    isTransitioning := false
    startTime := 0
    targetIndex := 0
    textures := [some 10, some 11, some 12]
    textureResolutions := [some (1600, 900), none, some (1200, 800)]
    displacementTextures := [some 20]
    displacementTexture := some 20
    material := some sampleUniforms
    pendingInitialIndex := none
    imageChangeCalls := []
    completionCallbackRuns := 0 }

/-- A freshly constructed engine (constructor lines 8-31, synchronous
part): empty caches, no material, index `0`, not transitioning; the
counter of completion-callback invocations starts at `0`. -/
def freshEngine (images displacementImages : List String) : EngineState :=
  { images := images
    displacementImages := displacementImages
    intensity := 0.4
    transitionSpeed := 1.2
    hasOnImageChange := false
    parentWidth := 800
    parentHeight := 600
    currentIndex := 0
    isTransitioning := false
    startTime := 0
    targetIndex := 0
    textures := []
    textureResolutions := []
    displacementTextures := []
    displacementTexture := none
    material := none
    pendingInitialIndex := none
    imageChangeCalls := []
    completionCallbackRuns := 0 }

end ScrollDistortion

namespace WebflowController

/-- State of a (revised) `WebflowGLController` instance: configuration,
scroll-lock bookkeeping and the owned engine.  `listenerInstalls` counts
the sets of window input-blocking listeners currently installed (one set
is the capturing non-passive wheel/touchmove/keydown trio added by
`lockScroll`); `hasCleanup` records whether `scrollUnlockCleanup` holds a
closure; `scrollUnlockTimer` is the single pending auto-unlock timeout
carrying its duration in ms. -/
structure ControllerState where
  imageUrls : List String
  scrollLockDuration : ℕ
  scrollLocked : Bool
  hasCleanup : Bool
  listenerInstalls : ℕ
  scrollUnlockTimer : Option ℕ
  currentState : Option ℕ
  engine : Option ScrollDistortion.EngineState
deriving DecidableEq

/-- `config.scrollLockDuration || 1200` in the constructor
(`webflow-controller.js`, revised controller, line 307): `undefined` and
`0` fall back to the 1200 ms default. -/
def mkScrollLockDuration (v : Option ℕ) : ℕ :=
  match v with
  | some d => if d = 0 then 1200 else d
  | none => 1200

/-- `lockScroll()` (lines 525-571): a no-op while already locked;
otherwise set the flag, install one listener set and store the cleanup
closure. -/
def lockScroll (c : ControllerState) : ControllerState :=
  if c.scrollLocked then c
  else
    { c with
      scrollLocked := true
      listenerInstalls := c.listenerInstalls + 1
      hasCleanup := true }

/-- `unlockScroll()` (lines 573-588): a no-op while not locked;
otherwise run the stored cleanup (remove the listener set, clear the
flag, drop the closure) and clear any pending auto-unlock timer. -/
def unlockScroll (c : ControllerState) : ControllerState :=
  if ¬c.scrollLocked then c
  else
    let c1 :=
      if c.hasCleanup then
        { c with
          scrollLocked := false
          listenerInstalls := c.listenerInstalls - 1
          hasCleanup := false }
      else c
    { c1 with scrollUnlockTimer := none }

/-- `scheduleScrollUnlock()` (lines 590-600): clear any existing timer
and schedule a single unlock after `scrollLockDuration` ms. -/
def scheduleScrollUnlock (c : ControllerState) : ControllerState :=
  { c with scrollUnlockTimer := some c.scrollLockDuration }

/-- Expiry of the pending auto-unlock timeout: the timer stops being
pending and its callback runs `unlockScroll()` (lines 597-599). -/
def fireScrollUnlockTimer (c : ControllerState) : ControllerState :=
  match c.scrollUnlockTimer with
  | none => c
  | some _ => unlockScroll { c with scrollUnlockTimer := none }

/-- The `^state-(\d+)$` match plus `parseInt(match[1], 10)` shared by
both controller revisions: anchored literal `state-` followed by one or
more decimal digits. -/
def parseStateToken (className : String) : Option ℕ :=
  match className.toList with
  | 's' :: 't' :: 'a' :: 't' :: 'e' :: '-' :: rest =>
    if rest ≠ [] ∧ rest.all Char.isDigit then
      some (rest.foldl (fun acc c => 10 * acc + (c.toNat - 48)) 0)
    else none
  | _ => none

/-- The loop body of the revised `extractStateNumber` (lines 468-477):
the accumulator is the pair `(maxNum, maxState)`. -/
def extractStep (acc : ℤ × Option ℕ) (className : String) : ℤ × Option ℕ :=
  match parseStateToken className with
  | some n => if (n : ℤ) > acc.1 then ((n : ℤ), some n) else acc
  | none => acc

/-- `extractStateNumber(element)` of the revised controller (lines
461-484): scan the whole class list keeping the highest match
(`maxNum` starts at `-1`), then return `Math.max(0, maxState - 1)` —
which on `ℕ` is truncated subtraction `maxState - 1` — or `null`. -/
def extractStateNumber (classList : List String) : Option ℕ :=
  let r := classList.foldl extractStep (-1, none)
  match r.2 with
  | some maxState => some (maxState - 1)
  | none => none

/-- `extractStateNumber(element)` of the superseded first controller
revision (lines 127-139): the first matching class wins
(`return Math.max(0, num - 1)` inside the loop). -/
def extractStateNumberOriginal (classList : List String) : Option ℕ :=
  match classList.findSome? parseStateToken with
  | some n => some (n - 1)
  | none => none

/-- The state numbers matched in a class list (for stating the claim
about `extractStateNumber`). -/
def matchedStates (classList : List String) : List ℕ :=
  classList.filterMap parseStateToken

/-- `triggerTransition(index)` (lines 486-504) at wall-clock `now` (ms):
update content-section visibility (DOM-only, no controller state), lock
scroll, clamp the index to the configured url list, forward to
`engine.transitionTo`, and schedule the safety unlock. -/
def triggerTransition (index : ℤ) (now : ℚ) (c : ControllerState) :
    ControllerState :=
  match c.engine with
  | none => c
  | some e =>
    let c1 := lockScroll c
    let targetIndex := max 0 (min index ((c.imageUrls.length : ℤ) - 1))
    let c2 := { c1 with
      engine := some (ScrollDistortion.transitionTo targetIndex now e) }
    scheduleScrollUnlock c2

/-- A concrete controller state used by the closed instantiation
theorems. -/
def sampleController : ControllerState :=
  { imageUrls := ["a.jpg", "b.jpg", "c.jpg"]
    scrollLockDuration := 1200
    scrollLocked := false
    hasCleanup := false
    listenerInstalls := 0
    scrollUnlockTimer := none
    currentState := some 0
    engine := some ScrollDistortion.sampleEngine }

end WebflowController

/-! ## Theorems settling the claims -/

namespace ScrollDistortion

/-- Claim C7: for every integer target index `i`,
`getDisplacementIndex i` returns `0` on `0 ≤ i ≤ 2`, `1` on
`3 ≤ i ≤ 6`, `2` on `7 ≤ i ≤ 10`, and `0` for every other integer. -/
theorem getDisplacementIndex_buckets (i : ℤ) :
    (0 ≤ i ∧ i ≤ 2 → getDisplacementIndex i = 0) ∧
    (3 ≤ i ∧ i ≤ 6 → getDisplacementIndex i = 1) ∧
    (7 ≤ i ∧ i ≤ 10 → getDisplacementIndex i = 2) ∧
    (¬(0 ≤ i ∧ i ≤ 2) ∧ ¬(3 ≤ i ∧ i ≤ 6) ∧ ¬(7 ≤ i ∧ i ≤ 10) →
      getDisplacementIndex i = 0) := by
  unfold getDisplacementIndex
  refine ⟨?_, ?_, ?_, ?_⟩ <;> intro h <;> split_ifs <;> omega

/-- Witness for C7: the bucket mapping evaluated at concrete indices
`1`, `4`, `8`, `11` and `-5`. -/
theorem getDisplacementIndex_buckets_witness :
    getDisplacementIndex 1 = 0 ∧ getDisplacementIndex 4 = 1 ∧
    getDisplacementIndex 8 = 2 ∧ getDisplacementIndex 11 = 0 ∧
    getDisplacementIndex (-5) = 0 :=
  ⟨(getDisplacementIndex_buckets 1).1 (by decide),
   (getDisplacementIndex_buckets 4).2.1 (by decide),
   (getDisplacementIndex_buckets 8).2.2.1 (by decide),
   (getDisplacementIndex_buckets 11).2.2.2 (by decide),
   (getDisplacementIndex_buckets (-5)).2.2.2 (by decide)⟩

/-- Claim C8: for every configured intensity `v`,
`computeOverscanFactor` returns `1.05 + min 0.6 (v * 1.2)`; with
intensity `0.4` it returns exactly `1.53` (numbers modelled as exact
rationals). -/
theorem computeOverscanFactor_spec (s : EngineState) (v : ℚ)
    (hv : s.intensity = v) :
    computeOverscanFactor s = 1.05 + min 0.6 (v * 1.2) ∧
    (v = 0.4 → computeOverscanFactor s = 1.53) := by
  constructor
  · simp [computeOverscanFactor, hv]
  · intro h4
    rw [computeOverscanFactor, hv, h4]
    norm_num

/-- Witness for C8: an engine configured with intensity `0.4` yields
overscan factor `1.53`. -/
theorem computeOverscanFactor_spec_witness :
    computeOverscanFactor { sampleEngine with intensity := 0.4 } = 1.53 :=
  (computeOverscanFactor_spec { sampleEngine with intensity := 0.4 } 0.4 rfl).2 rfl

/-- Helper: `transitionTo` returns its state unchanged whenever any of
the three claim-relevant guards holds (shared by the C1 theorem and the
C10 proof). -/
theorem transitionTo_guard_noop (s : EngineState) (t : ℤ) (now : ℚ)
    (h : s.isTransitioning = true ∨ t = s.currentIndex ∨
      listGet s.textures t = none) :
    transitionTo t now s = s := by
  unfold transitionTo
  rcases h with h | h | h
  · simp [h]
  · simp [h]
  · by_cases hg : s.isTransitioning = true ∨ t = s.currentIndex ∨ s.material = none
    · rw [if_pos hg]
    · rw [if_neg hg, if_pos h]

/-- Claim C1: a `transitionTo t` call made while a transition is in
flight, or with `t` equal to the current index, or with the texture at
`t` not loaded, leaves the engine state entirely unchanged — in
particular `currentIndex`, `isTransitioning`, the progress uniform, the
texture bindings and the `onImageChange` call log — and the request is
dropped (the state holds no queue) rather than raised as an error (the
function returns normally). -/
theorem transitionTo_rejected_is_noop (s : EngineState) (t : ℤ) (now : ℚ)
    (h : s.isTransitioning = true ∨ t = s.currentIndex ∨
      listGet s.textures t = none) :
    transitionTo t now s = s :=
  transitionTo_guard_noop s t now h

/-- Witness for C1: the three rejection guards exercised on concrete
states — mid-transition, target equal to current, and unloaded target
texture. -/
theorem transitionTo_rejected_is_noop_witness :
    transitionTo 1 0 { sampleEngine with isTransitioning := true }
      = { sampleEngine with isTransitioning := true } ∧
    transitionTo 0 0 sampleEngine = sampleEngine ∧
    transitionTo 5 0 sampleEngine = sampleEngine :=
  ⟨transitionTo_rejected_is_noop _ 1 0 (Or.inl rfl),
   transitionTo_rejected_is_noop _ 0 0 (Or.inr (Or.inl (by decide))),
   transitionTo_rejected_is_noop _ 5 0 (Or.inr (Or.inr (by decide)))⟩

/-- Helper: the clamp `Math.max(0, Math.min(i, m))` is idempotent. -/
theorem clamp_idem (i m : ℤ) :
    max 0 (min (max 0 (min i m)) m) = max 0 (min i m) := by
  omega

/-- Helper: `applyInitialImage` either leaves `currentIndex` unchanged
(guard failure) or commits the clamped index. -/
theorem applyInitialImage_currentIndex (j : ℤ) (s : EngineState) :
    (applyInitialImage j s).currentIndex = s.currentIndex ∨
    (applyInitialImage j s).currentIndex
      = max 0 (min j ((s.images.length : ℤ) - 1)) := by
  unfold applyInitialImage
  rcases hm : s.material with _ | u
  · exact Or.inl rfl
  · rcases ht : listGet s.textures j with _ | tex
    · exact Or.inl rfl
    · exact Or.inr rfl

/-- Helper: `setInitialImage` always commits the clamped index to
`currentIndex` (shared by the C10 theorem and other proofs). -/
theorem setInitialImage_currentIndex (i : ℤ) (s : EngineState) :
    (setInitialImage i s).currentIndex
      = max 0 (min i ((s.images.length : ℤ) - 1)) := by
  unfold setInitialImage
  by_cases hready :
      ({ s with currentIndex := max 0 (min i ((s.images.length : ℤ) - 1)) }
          : EngineState).material.isSome
        ∧ ({ s with currentIndex := max 0 (min i ((s.images.length : ℤ) - 1)) }
          : EngineState).textures ≠ []
        ∧ (listGet ({ s with
            currentIndex := max 0 (min i ((s.images.length : ℤ) - 1)) }
              : EngineState).textures
            (max 0 (min i ((s.images.length : ℤ) - 1)))).isSome
  · rw [if_pos hready]
    rcases applyInitialImage_currentIndex
        (max 0 (min i ((s.images.length : ℤ) - 1)))
        { s with currentIndex := max 0 (min i ((s.images.length : ℤ) - 1)) } with
      hc | hc
    · simpa using hc
    · simpa [clamp_idem] using hc
  · rw [if_neg hready]
    by_cases hp : pendingFalsy ({ s with
        currentIndex := max 0 (min i ((s.images.length : ℤ) - 1)) }
          : EngineState).pendingInitialIndex
    · rw [if_pos hp]
    · rw [if_neg hp]

/-- Helper: one `animateProgress` frame either keeps `currentIndex` (the
transition is still running) or commits it to `targetIndex`. -/
theorem animateProgress_currentIndex (now' : ℚ) (s : EngineState) :
    (animateProgress now' s).currentIndex = s.currentIndex ∨
    (animateProgress now' s).currentIndex = s.targetIndex := by
  rcases hm : s.material with _ | u
  · exact Or.inl (by simp [animateProgress, hm])
  · by_cases hte :
        easeOut (min ((now' - s.startTime) / 1000 / s.transitionSpeed) 1) < 1
    · exact Or.inl (by simp [animateProgress, hm, hte])
    · exact Or.inr (by simp [animateProgress, hm, hte])

/-- Helper: the `animateProgress` frame `transitionTo` runs at the very
instant the transition starts (elapsed time zero) writes progress `0`
and changes none of the bookkeeping fields. -/
theorem animateProgress_at_start (now : ℚ) (s : EngineState)
    (h : s.startTime = now) :
    (animateProgress now s).currentIndex = s.currentIndex ∧
    (animateProgress now s).targetIndex = s.targetIndex ∧
    (animateProgress now s).isTransitioning = s.isTransitioning := by
  have he : easeOut (min ((now - s.startTime) / 1000 / s.transitionSpeed) 1) < 1 := by
    rw [h, sub_self]
    have h0 : (0 : ℚ) / 1000 / s.transitionSpeed = 0 := by simp
    rw [h0]
    norm_num [easeOut, min_def]
  rcases hm : s.material with _ | u
  · refine ⟨?_, ?_, ?_⟩ <;> simp [animateProgress, hm]
  · refine ⟨?_, ?_, ?_⟩ <;> simp [animateProgress, hm, he]

/-- Helper: `transitionTo` either returns the state unchanged or accepts
the request, in which case the synchronous part keeps `currentIndex`,
records `targetIndex := t` and raises the flag. -/
theorem transitionTo_cases (t : ℤ) (now : ℚ) (s : EngineState) :
    transitionTo t now s = s ∨
    ((transitionTo t now s).currentIndex = s.currentIndex ∧
     (transitionTo t now s).targetIndex = t ∧
     (transitionTo t now s).isTransitioning = true) := by
  unfold transitionTo
  split
  · exact Or.inl rfl
  · split
    · exact Or.inl rfl
    · split
      · exact Or.inl rfl
      · refine Or.inr ?_
        refine ⟨(animateProgress_at_start now _ rfl).1,
                (animateProgress_at_start now _ rfl).2.1,
                (animateProgress_at_start now _ rfl).2.2⟩

/-- Helper: a rational cube is positive exactly when its base is. -/
theorem cube_pos_iff (a : ℚ) : 0 < a ^ 3 ↔ 0 < a := by
  constructor
  · intro h
    by_contra hn
    push_neg at hn
    have h3 : a ^ 3 ≤ 0 := by nlinarith [sq_nonneg a]
    linarith
  · exact fun h => pow_pos h 3

/-- Helper: the cubic ease-out stays below `1` exactly while its input
does. -/
theorem easeOut_lt_one_iff (t : ℚ) : easeOut t < 1 ↔ t < 1 := by
  unfold easeOut
  constructor
  · intro h
    have h3 : 0 < (1 - t) ^ 3 := by linarith
    have := (cube_pos_iff (1 - t)).mp h3
    linarith
  · intro h
    have h3 : 0 < (1 - t) ^ 3 := pow_pos (by linarith) 3
    linarith

/-- Claim C4: on every frame of an accepted transition with duration
`d = transitionSpeed > 0` and nonnegative elapsed wall-clock time, the
code's linear time `min(elapsed/d, 1)` equals the claim's
`clamp(elapsed/d, 0, 1)`; while it is below `1` the frame writes exactly
`1 - (1 - t)^3` into the progress uniform and changes nothing else; and
when it reaches `1` the frame commits `currentIndex := targetIndex`,
clears the transitioning flag, resets the progress uniform to `0` and
re-binds the shader texture pair to
`(currentIndex, min(currentIndex + 1, lastIndex))`. -/
theorem animateProgress_spec (s : EngineState) (u : Uniforms) (now : ℚ)
    (hm : s.material = some u) (hd : 0 < s.transitionSpeed)
    (hnow : s.startTime ≤ now) :
    (max 0 (min ((now - s.startTime) / 1000 / s.transitionSpeed) 1)
      = min ((now - s.startTime) / 1000 / s.transitionSpeed) 1) ∧
    (min ((now - s.startTime) / 1000 / s.transitionSpeed) 1 < 1 →
      animateProgress now s = { s with material := some { u with
        progress :=
          1 - (1 - min ((now - s.startTime) / 1000 / s.transitionSpeed) 1) ^ 3 } }) ∧
    (min ((now - s.startTime) / 1000 / s.transitionSpeed) 1 = 1 →
      animateProgress now s = { s with
        currentIndex := s.targetIndex
        isTransitioning := false
        material := some { u with
          progress := 0
          texture1 := listGet s.textures s.targetIndex
          texture2 := listGet s.textures
            (min (s.targetIndex + 1) ((s.images.length : ℤ) - 1))
          texRes1 := (listGet s.textureResolutions s.targetIndex).getD u.texRes1
          texRes2 := (listGet s.textureResolutions
            (min (s.targetIndex + 1) ((s.images.length : ℤ) - 1))).getD u.texRes2 } }) := by
  refine ⟨?_, ?_, ?_⟩
  · have hx : 0 ≤ (now - s.startTime) / 1000 / s.transitionSpeed :=
      div_nonneg (div_nonneg (by linarith) (by norm_num)) (le_of_lt hd)
    exact max_eq_right (le_min hx (by norm_num))
  · intro htl
    have hte : easeOut (min ((now - s.startTime) / 1000 / s.transitionSpeed) 1) < 1 :=
      (easeOut_lt_one_iff _).mpr htl
    simp only [animateProgress, hm]
    rw [if_pos hte]
    rfl
  · intro ht1
    have hte : ¬ easeOut (min ((now - s.startTime) / 1000 / s.transitionSpeed) 1) < 1 := by
      rw [ht1]
      simp [easeOut]
    simp only [animateProgress, hm]
    rw [if_neg hte]

/-- Witness for C4: on a concrete transitioning state with duration 2 s
started at time 0, the frame at 2000 ms completes the transition:
`currentIndex` becomes the target `1`, the flag clears and the progress
uniform resets to `0`. -/
theorem animateProgress_spec_witness :
    (animateProgress 2000
        { sampleEngine with isTransitioning := true, targetIndex := 1 }).currentIndex = 1 ∧
    (animateProgress 2000
        { sampleEngine with isTransitioning := true, targetIndex := 1 }).isTransitioning = false ∧
    ((animateProgress 2000
        { sampleEngine with isTransitioning := true, targetIndex := 1 }).material.map
          Uniforms.progress) = some 0 := by
  have h := (animateProgress_spec
      { sampleEngine with isTransitioning := true, targetIndex := 1 }
      sampleUniforms 2000 rfl (by norm_num [sampleEngine])
      (by norm_num [sampleEngine])).2.2
      (by norm_num [sampleEngine])
  rw [h]
  exact ⟨rfl, rfl, rfl⟩

/-- Claim C5: starting from any state with `currentIndex` inside
`[0, images.length - 1]`, `transitionToNext` and `transitionToPrevious`
never move `currentIndex` out of that range — their synchronous part
keeps it, at the last index `transitionToNext` changes nothing, at index
`0` `transitionToPrevious` changes nothing (no wraparound), and when one
of them does start a transition every later `animateProgress` frame
(including the completing one) keeps `currentIndex` in range. -/
theorem transitions_no_wrap (s : EngineState) (now : ℚ)
    (h0 : 0 ≤ s.currentIndex)
    (h1 : s.currentIndex ≤ (s.images.length : ℤ) - 1) :
    (0 ≤ (transitionToNext now s).currentIndex ∧
      (transitionToNext now s).currentIndex ≤ (s.images.length : ℤ) - 1) ∧
    (0 ≤ (transitionToPrevious now s).currentIndex ∧
      (transitionToPrevious now s).currentIndex ≤ (s.images.length : ℤ) - 1) ∧
    (s.currentIndex = (s.images.length : ℤ) - 1 → transitionToNext now s = s) ∧
    (s.currentIndex = 0 → transitionToPrevious now s = s) ∧
    (s.isTransitioning = false →
      (∀ now', (transitionToNext now s).isTransitioning = true →
        0 ≤ (animateProgress now' (transitionToNext now s)).currentIndex ∧
        (animateProgress now' (transitionToNext now s)).currentIndex
          ≤ (s.images.length : ℤ) - 1) ∧
      (∀ now', (transitionToPrevious now s).isTransitioning = true →
        0 ≤ (animateProgress now' (transitionToPrevious now s)).currentIndex ∧
        (animateProgress now' (transitionToPrevious now s)).currentIndex
          ≤ (s.images.length : ℤ) - 1)) := by
  have hnext : transitionToNext now s = s ∨
      (transitionToNext now s = transitionTo (s.currentIndex + 1) now s ∧
        s.currentIndex < (s.images.length : ℤ) - 1) := by
    unfold transitionToNext
    split_ifs with ha hb
    · exact Or.inl rfl
    · exact Or.inl rfl
    · exact Or.inr ⟨rfl, by omega⟩
  have hprev : transitionToPrevious now s = s ∨
      (transitionToPrevious now s = transitionTo (s.currentIndex - 1) now s ∧
        0 < s.currentIndex) := by
    unfold transitionToPrevious
    split_ifs with ha hb
    · exact Or.inl rfl
    · exact Or.inl rfl
    · exact Or.inr ⟨rfl, by omega⟩
  have hnextCur : (transitionToNext now s).currentIndex = s.currentIndex := by
    rcases hnext with he | ⟨heq, _⟩
    · rw [he]
    · rw [heq]
      rcases transitionTo_cases (s.currentIndex + 1) now s with h | ⟨hc, _, _⟩
      · rw [h]
      · exact hc
  have hprevCur : (transitionToPrevious now s).currentIndex = s.currentIndex := by
    rcases hprev with he | ⟨heq, _⟩
    · rw [he]
    · rw [heq]
      rcases transitionTo_cases (s.currentIndex - 1) now s with h | ⟨hc, _, _⟩
      · rw [h]
      · exact hc
  refine ⟨?_, ?_, ?_, ?_, ?_⟩
  · rw [hnextCur]; exact ⟨h0, h1⟩
  · rw [hprevCur]; exact ⟨h0, h1⟩
  · intro hlast
    unfold transitionToNext
    split_ifs with ha hb
    · rfl
    · rfl
    · omega
  · intro hfirst
    unfold transitionToPrevious
    split_ifs with ha hb
    · rfl
    · rfl
    · omega
  · intro hidle
    constructor
    · intro now' htrans
      rcases hnext with he | ⟨heq, hlt⟩
      · rw [he, hidle] at htrans
        simp at htrans
      · rw [heq] at htrans ⊢
        rcases transitionTo_cases (s.currentIndex + 1) now s with h | ⟨hc, htgt, _⟩
        · rw [h, hidle] at htrans
          simp at htrans
        · rcases animateProgress_currentIndex now'
              (transitionTo (s.currentIndex + 1) now s) with hA | hA <;>
            rw [hA]
          · rw [hc]; exact ⟨h0, h1⟩
          · rw [htgt]; omega
    · intro now' htrans
      rcases hprev with he | ⟨heq, hlt⟩
      · rw [he, hidle] at htrans
        simp at htrans
      · rw [heq] at htrans ⊢
        rcases transitionTo_cases (s.currentIndex - 1) now s with h | ⟨hc, htgt, _⟩
        · rw [h, hidle] at htrans
          simp at htrans
        · rcases animateProgress_currentIndex now'
              (transitionTo (s.currentIndex - 1) now s) with hA | hA <;>
            rw [hA]
          · rw [hc]; exact ⟨h0, h1⟩
          · rw [htgt]; omega

/-- Witness for C5: on a concrete in-range state, `transitionToPrevious`
at index `0` is a no-op and `transitionToNext` keeps `currentIndex` in
range. -/
theorem transitions_no_wrap_witness :
    transitionToPrevious 0 sampleEngine = sampleEngine ∧
    0 ≤ (transitionToNext 0 sampleEngine).currentIndex ∧
    (transitionToNext 0 sampleEngine).currentIndex
      ≤ (sampleEngine.images.length : ℤ) - 1 :=
  ⟨(transitions_no_wrap sampleEngine 0 (by decide) (by decide)).2.2.2.1 rfl,
   (transitions_no_wrap sampleEngine 0 (by decide) (by decide)).1.1,
   (transitions_no_wrap sampleEngine 0 (by decide) (by decide)).1.2⟩

/-- Claim C10: every `setInitialImage i` call sets `currentIndex` to the
clamped index immediately — including when the material and textures are
not yet loaded — so `getCurrentIndex` reports the clamped index, and a
later `transitionTo` to that same index is rejected unchanged by the
target-equals-current guard. -/
theorem setInitialImage_commits_current (s : EngineState) (i : ℤ) :
    (setInitialImage i s).currentIndex
      = max 0 (min i ((s.images.length : ℤ) - 1)) ∧
    getCurrentIndex (setInitialImage i s)
      = max 0 (min i ((s.images.length : ℤ) - 1)) ∧
    ∀ now, transitionTo (max 0 (min i ((s.images.length : ℤ) - 1))) now
      (setInitialImage i s) = setInitialImage i s := by
  refine ⟨setInitialImage_currentIndex i s, setInitialImage_currentIndex i s, ?_⟩
  intro now
  exact transitionTo_guard_noop _ _ now
    (Or.inr (Or.inl (setInitialImage_currentIndex i s).symm))

end ScrollDistortion

namespace WebflowController

/-- Claim C6: `lockScroll` while locked changes nothing (no additional
listener set, no state change) and `unlockScroll` while unlocked is a
no-op; every triggered transition leaves exactly the single safety timer
pending for the configured scroll-lock duration (default 1200 ms per
`mkScrollLockDuration`), and its expiry unlocks scrolling — clearing the
flag and the timer — even with no explicit unlock call.  The hypothesis
`hinv` is the invariant, maintained by every operation, that a locked
controller holds its cleanup closure. -/
theorem scroll_lock_spec (c : ControllerState) (i : ℤ) (now : ℚ)
    (hinv : c.scrollLocked = true → c.hasCleanup = true)
    (heng : c.engine.isSome = true) :
    lockScroll (lockScroll c) = lockScroll c ∧
    (c.scrollLocked = false → unlockScroll c = c) ∧
    (triggerTransition i now c).scrollUnlockTimer = some c.scrollLockDuration ∧
    (fireScrollUnlockTimer (triggerTransition i now c)).scrollLocked = false ∧
    (fireScrollUnlockTimer (triggerTransition i now c)).scrollUnlockTimer = none ∧
    mkScrollLockDuration none = 1200 := by
  rcases Option.isSome_iff_exists.mp heng with ⟨e, he⟩
  have hlock : lockScroll (lockScroll c) = lockScroll c := by
    by_cases hl : c.scrollLocked <;> simp [lockScroll, hl]
  have hunlock : c.scrollLocked = false → unlockScroll c = c := by
    intro h
    simp [unlockScroll, h]
  have htimer :
      (triggerTransition i now c).scrollUnlockTimer = some c.scrollLockDuration := by
    by_cases hl : c.scrollLocked <;>
      simp [triggerTransition, he, scheduleScrollUnlock, lockScroll, hl]
  have hfire1 :
      (fireScrollUnlockTimer (triggerTransition i now c)).scrollLocked = false := by
    by_cases hl : c.scrollLocked
    · have hcl := hinv hl
      simp [fireScrollUnlockTimer, triggerTransition, he, scheduleScrollUnlock,
        lockScroll, unlockScroll, hl, hcl]
    · simp [fireScrollUnlockTimer, triggerTransition, he, scheduleScrollUnlock,
        lockScroll, unlockScroll, hl]
  have hfire2 :
      (fireScrollUnlockTimer (triggerTransition i now c)).scrollUnlockTimer = none := by
    by_cases hl : c.scrollLocked
    · have hcl := hinv hl
      simp [fireScrollUnlockTimer, triggerTransition, he, scheduleScrollUnlock,
        lockScroll, unlockScroll, hl, hcl]
    · simp [fireScrollUnlockTimer, triggerTransition, he, scheduleScrollUnlock,
        lockScroll, unlockScroll, hl]
  exact ⟨hlock, hunlock, htimer, hfire1, hfire2, rfl⟩

/-- Witness for C6: on a concrete unlocked controller, a triggered
transition leaves the 1200 ms safety timer pending and its expiry leaves
scrolling unlocked. -/
theorem scroll_lock_spec_witness :
    (triggerTransition 1 0 sampleController).scrollUnlockTimer = some 1200 ∧
    (fireScrollUnlockTimer (triggerTransition 1 0 sampleController)).scrollLocked
      = false :=
  ⟨(scroll_lock_spec sampleController 1 0 (by decide) (by decide)).2.2.1,
   (scroll_lock_spec sampleController 1 0 (by decide) (by decide)).2.2.2.1⟩

/-- Helper: folding the revised scan body from an accumulator that
already holds `m` yields the running maximum of `m` and all matched
state numbers. -/
theorem extractStep_foldl_from (l : List String) (m : ℕ) :
    l.foldl extractStep ((m : ℤ), some m)
      = ((((matchedStates l).foldl max m : ℕ) : ℤ),
          some ((matchedStates l).foldl max m)) := by
  induction l generalizing m with
  | nil => simp [matchedStates]
  | cons c tl ih =>
    rcases hp : parseStateToken c with _ | n
    · have hms : matchedStates (c :: tl) = matchedStates tl := by
        simp [matchedStates, List.filterMap_cons, hp]
      have hstep : extractStep ((m : ℤ), some m) c = ((m : ℤ), some m) := by
        simp [extractStep, hp]
      rw [hms, List.foldl_cons, hstep, ih m]
    · have hms : matchedStates (c :: tl) = n :: matchedStates tl := by
        simp [matchedStates, List.filterMap_cons, hp]
      by_cases hgt : (m : ℤ) < (n : ℤ)
      · have hstep : extractStep ((m : ℤ), some m) c = ((n : ℤ), some n) := by
          simp [extractStep, hp, hgt]
        have hmax : max m n = n := by
          have h' : m < n := by exact_mod_cast hgt
          omega
        rw [hms, List.foldl_cons (f := max), List.foldl_cons, hstep, ih n, hmax]
      · have hstep : extractStep ((m : ℤ), some m) c = ((m : ℤ), some m) := by
          unfold extractStep
          rw [hp]
          exact if_neg hgt
        have hmax : max m n = m := by
          have h' : ¬ m < n := by exact_mod_cast hgt
          omega
        rw [hms, List.foldl_cons (f := max), List.foldl_cons, hstep, ih m, hmax]

/-- Helper: the revised scan from the initial `(-1, null)` accumulator
returns the first match folded with the maxima of the rest, or stays at
`(-1, null)` when nothing matches. -/
theorem extractStep_foldl_start (l : List String) :
    l.foldl extractStep (-1, none)
      = match matchedStates l with
        | [] => ((-1 : ℤ), (none : Option ℕ))
        | n :: rest => (((rest.foldl max n : ℕ) : ℤ), some (rest.foldl max n)) := by
  induction l with
  | nil => rfl
  | cons c tl ih =>
    rcases hp : parseStateToken c with _ | n
    · have hms : matchedStates (c :: tl) = matchedStates tl := by
        simp [matchedStates, List.filterMap_cons, hp]
      have hstep : extractStep (-1, none) c = (-1, none) := by
        simp [extractStep, hp]
      rw [hms, List.foldl_cons, hstep, ih]
    · have hms : matchedStates (c :: tl) = n :: matchedStates tl := by
        simp [matchedStates, List.filterMap_cons, hp]
      have hgt : (-1 : ℤ) < (n : ℤ) := by omega
      have hstep : extractStep (-1, none) c = ((n : ℤ), some n) := by
        simp [extractStep, hp, hgt]
      rw [hms, List.foldl_cons, hstep, extractStep_foldl_from tl n]

/-- Claim C3: when a class list contains at least one `state-<N>` token
(all matched `N` positive), the revised `extractStateNumber` returns the
highest matched `N` minus one; with no matching token it returns
`none`. -/
theorem extractStateNumber_highest (l : List String)
    (hpos : ∀ n ∈ matchedStates l, 1 ≤ n) :
    (matchedStates l ≠ [] →
      extractStateNumber l = some ((matchedStates l).foldl max 0 - 1)) ∧
    (matchedStates l = [] → extractStateNumber l = none) := by
  constructor
  · intro hne
    rcases hml : matchedStates l with _ | ⟨n, rest⟩
    · exact absurd hml hne
    · unfold extractStateNumber
      rw [extractStep_foldl_start l, hml, List.foldl_cons]
      have h0 : max 0 n = n := by omega
      rw [h0]
  · intro hml
    unfold extractStateNumber
    rw [extractStep_foldl_start l, hml]

/-- Witness for C3: a class list `["state-2", "state-5"]` extracts state
index `4` (highest `N = 5`, zero-based). -/
theorem extractStateNumber_highest_witness :
    extractStateNumber ["state-2", "state-5"] = some 4 := by
  have h := (extractStateNumber_highest ["state-2", "state-5"] (by decide)).1
    (by decide)
  rw [h]
  decide

end WebflowController

namespace ScrollDistortion

/-- Helper: `applyInitialImage` never touches the completion-callback
counter. -/
theorem applyInitialImage_runs (j : ℤ) (s : EngineState) :
    (applyInitialImage j s).completionCallbackRuns = s.completionCallbackRuns := by
  unfold applyInitialImage
  split <;> rfl

/-- Helper: `onTexturesLoaded` never touches the completion-callback
counter. -/
theorem onTexturesLoaded_runs (s : EngineState) :
    (onTexturesLoaded s).completionCallbackRuns = s.completionCallbackRuns := by
  simp only [onTexturesLoaded]
  split_ifs with h
  · rfl
  · split
    · exact applyInitialImage_runs _ _
    · rfl

/-- Helper: one `setImages` loader success callback never touches the
completion-callback counter. -/
theorem setImagesLoadSuccess_runs (i : ℕ) (t : Texture) (r : Option Res)
    (b : SetImagesBatch) :
    (setImagesLoadSuccess i t r b).state.completionCallbackRuns
      = b.state.completionCallbackRuns := by
  simp only [setImagesLoadSuccess]
  split_ifs with h
  · split
    · split
      · exact applyInitialImage_runs _ _
      · rfl
    · exact onTexturesLoaded_runs _
  · rfl

/-- Claim C2 (contradicted by the code): the engine's `setImages`
declares a single parameter, so the completion callback the revised
controller passes as a second argument is bound to nothing — across the
synchronous part and every loader callback of a whole `setImages` batch
the count of completion-callback invocations never changes, and in
particular after a three-entry batch has finished loading on a fresh
engine the callback has run `0` times, not the claimed exactly once. -/
theorem setImages_onComplete_never_invoked :
    (∀ (s : EngineState) (imageUrls : List String) (events : List LoadEvent),
      (setImagesRun imageUrls events s).completionCallbackRuns
        = s.completionCallbackRuns) ∧
    (setImagesRun ["a.jpg", "b.jpg", "c.jpg"]
        [LoadEvent.success 0 30 (some (1920, 1080)),
         LoadEvent.success 1 31 none,
         LoadEvent.success 2 32 none]
        (freshEngine ["x.jpg", "y.jpg"] ["d.png"])).completionCallbackRuns = 0 := by
  have hfold : ∀ (events : List LoadEvent) (b : SetImagesBatch),
      (events.foldl
        (fun b e => match e with
          | .success i t r => setImagesLoadSuccess i t r b
          | .failure _ => b) b).state.completionCallbackRuns
        = b.state.completionCallbackRuns := by
    intro events
    induction events with
    | nil => intro b; rfl
    | cons e tl ih =>
      intro b
      cases e with
      | success i t r =>
        rw [List.foldl_cons, ih]
        exact setImagesLoadSuccess_runs i t r b
      | failure i =>
        rw [List.foldl_cons]
        exact ih _
  have hgen : ∀ (s : EngineState) (imageUrls : List String) (events : List LoadEvent),
      (setImagesRun imageUrls events s).completionCallbackRuns
        = s.completionCallbackRuns := by
    intro s urls events
    unfold setImagesRun
    split_ifs with hemp
    · rfl
    · exact hfold events (setImagesInit urls s)
  exact ⟨hgen, (hgen _ _ _).trans rfl⟩

end ScrollDistortion

namespace ScrollDistortion

/-- Counterexample to claim C9 as stated: with the material not yet
created and an earlier pending request `1` recorded, a new
`setInitialImage 2` call does not record the clamped index `2` — the
guard `if (!this.pendingInitialIndex)` keeps the earlier request. -/
theorem setInitialImage_pending_counterexample :
    (setInitialImage 2 { freshEngine ["a.jpg", "b.jpg", "c.jpg"] ["d.png"] with
        pendingInitialIndex := some 1 }).pendingInitialIndex = some 1 ∧
    (setInitialImage 2 { freshEngine ["a.jpg", "b.jpg", "c.jpg"] ["d.png"] with
        pendingInitialIndex := some 1 }).pendingInitialIndex ≠ some 2 := by
  constructor
  · rfl
  · decide

/-- Helper: `setInitialImage` in the ready case reduces to
`applyInitialImage` at the clamped index on the state whose
`currentIndex` was already committed. -/
theorem setInitialImage_ready_eq (i : ℤ) (s : EngineState)
    (hm : s.material.isSome = true) (hne : s.textures ≠ [])
    (hts : (listGet s.textures
      (max 0 (min i ((s.images.length : ℤ) - 1)))).isSome = true) :
    setInitialImage i s
      = applyInitialImage (max 0 (min i ((s.images.length : ℤ) - 1)))
          { s with currentIndex := max 0 (min i ((s.images.length : ℤ) - 1)) } := by
  simp only [setInitialImage]
  split_ifs with h h2
  · rfl
  · exact absurd ⟨hm, hne, hts⟩ h
  · exact absurd ⟨hm, hne, hts⟩ h

/-- Helper: what `applyInitialImage` does when its guard passes: binds
the clamped index as the "from" texture, resets progress, binds the "to"
texture only when the texture at `min(clamped+1, last)` is loaded
(keeping the old binding otherwise), starts no animation, and commits
`currentIndex`. -/
theorem applyInitialImage_ready (j : ℤ) (s : EngineState) (u : Uniforms)
    (hm : s.material = some u)
    (hts : (listGet s.textures j).isSome = true) :
    (applyInitialImage j s).material.map Uniforms.texture1
      = some (listGet s.textures (max 0 (min j ((s.images.length : ℤ) - 1)))) ∧
    (applyInitialImage j s).material.map Uniforms.progress = some 0 ∧
    (∀ t2, listGet s.textures (min (max 0 (min j ((s.images.length : ℤ) - 1)) + 1)
        ((s.images.length : ℤ) - 1)) = some t2 →
      (applyInitialImage j s).material.map Uniforms.texture2 = some (some t2)) ∧
    (listGet s.textures (min (max 0 (min j ((s.images.length : ℤ) - 1)) + 1)
        ((s.images.length : ℤ) - 1)) = none →
      (applyInitialImage j s).material.map Uniforms.texture2 = some u.texture2) ∧
    (applyInitialImage j s).isTransitioning = s.isTransitioning ∧
    (applyInitialImage j s).currentIndex
      = max 0 (min j ((s.images.length : ℤ) - 1)) := by
  rcases Option.isSome_iff_exists.mp hts with ⟨tex, htex⟩
  refine ⟨?_, ?_, ?_, ?_, ?_, ?_⟩
  · rcases hdt : s.displacementTextures.getD
        (getDisplacementIndex (max 0 (min j ((s.images.length : ℤ) - 1)))) none
        with _ | dt <;>
      rcases hnx : listGet s.textures
          (min (max 0 (min j ((s.images.length : ℤ) - 1)) + 1)
            ((s.images.length : ℤ) - 1)) with _ | t2 <;>
        simp [applyInitialImage, hm, htex, hdt, hnx]
  · rcases hdt : s.displacementTextures.getD
        (getDisplacementIndex (max 0 (min j ((s.images.length : ℤ) - 1)))) none
        with _ | dt <;>
      rcases hnx : listGet s.textures
          (min (max 0 (min j ((s.images.length : ℤ) - 1)) + 1)
            ((s.images.length : ℤ) - 1)) with _ | t2 <;>
        simp [applyInitialImage, hm, htex, hdt, hnx]
  · intro t2 hnx
    rcases hdt : s.displacementTextures.getD
        (getDisplacementIndex (max 0 (min j ((s.images.length : ℤ) - 1)))) none
        with _ | dt <;>
      simp [applyInitialImage, hm, htex, hdt, hnx]
  · intro hnx
    simp only [applyInitialImage, hm, htex]
    rcases hdt : s.displacementTextures.getD
        (getDisplacementIndex (max 0 (min j ((s.images.length : ℤ) - 1)))) none
        with _ | dt <;> simp [hnx]
  · rcases hdt : s.displacementTextures.getD
        (getDisplacementIndex (max 0 (min j ((s.images.length : ℤ) - 1)))) none
        with _ | dt <;>
      rcases hnx : listGet s.textures
          (min (max 0 (min j ((s.images.length : ℤ) - 1)) + 1)
            ((s.images.length : ℤ) - 1)) with _ | t2 <;>
        simp [applyInitialImage, hm, htex, hdt, hnx]
  · rcases hdt : s.displacementTextures.getD
        (getDisplacementIndex (max 0 (min j ((s.images.length : ℤ) - 1)))) none
        with _ | dt <;>
      rcases hnx : listGet s.textures
          (min (max 0 (min j ((s.images.length : ℤ) - 1)) + 1)
            ((s.images.length : ℤ) - 1)) with _ | t2 <;>
        simp [applyInitialImage, hm, htex, hdt, hnx]

end ScrollDistortion

namespace ScrollDistortion

/-- Helper: when its guard passes, `applyInitialImage` commits the
clamped index to `currentIndex`. -/
theorem applyInitialImage_currentIndex_ready (j : ℤ) (s : EngineState)
    (hm : s.material.isSome = true)
    (hts : (listGet s.textures j).isSome = true) :
    (applyInitialImage j s).currentIndex
      = max 0 (min j ((s.images.length : ℤ) - 1)) := by
  rcases Option.isSome_iff_exists.mp hm with ⟨u, hu⟩
  rcases Option.isSome_iff_exists.mp hts with ⟨tex, htex⟩
  simp [applyInitialImage, hu, htex]

/-- Claim C9 (amended): every `setInitialImage i` call clamps the index
to `[0, images.length - 1]`; when the material and the clamped texture
are ready it applies immediately — the clamped index is bound as the
"from" texture, `min(clamped + 1, lastIndex)` as the "to" texture
provided that texture is loaded (the previous "to" binding is kept
otherwise), and progress is reset to `0` with no animation started;
otherwise the clamped request is recorded only when no pending request
with a nonzero index already exists (an earlier nonzero pending request
is kept and the new one dropped); and a recorded pending request is
applied — cleared and committed — when `onTexturesLoaded` creates the
material. -/
theorem setInitialImage_amended (s : EngineState) (i : ℤ) :
    (s.images ≠ [] →
      0 ≤ max 0 (min i ((s.images.length : ℤ) - 1)) ∧
      max 0 (min i ((s.images.length : ℤ) - 1)) ≤ (s.images.length : ℤ) - 1) ∧
    (∀ u, s.material = some u → s.textures ≠ [] →
      (listGet s.textures (max 0 (min i ((s.images.length : ℤ) - 1)))).isSome = true →
      (setInitialImage i s).material.map Uniforms.texture1
          = some (listGet s.textures (max 0 (min i ((s.images.length : ℤ) - 1)))) ∧
      (setInitialImage i s).material.map Uniforms.progress = some 0 ∧
      (∀ t2, listGet s.textures (min (max 0 (min i ((s.images.length : ℤ) - 1)) + 1)
            ((s.images.length : ℤ) - 1)) = some t2 →
        (setInitialImage i s).material.map Uniforms.texture2 = some (some t2)) ∧
      (listGet s.textures (min (max 0 (min i ((s.images.length : ℤ) - 1)) + 1)
            ((s.images.length : ℤ) - 1)) = none →
        (setInitialImage i s).material.map Uniforms.texture2 = some u.texture2) ∧
      (setInitialImage i s).isTransitioning = s.isTransitioning) ∧
    (¬(s.material.isSome = true ∧ s.textures ≠ [] ∧
        (listGet s.textures (max 0 (min i ((s.images.length : ℤ) - 1)))).isSome = true) →
      (pendingFalsy s.pendingInitialIndex = true →
        (setInitialImage i s).pendingInitialIndex
          = some (max 0 (min i ((s.images.length : ℤ) - 1)))) ∧
      (pendingFalsy s.pendingInitialIndex = false →
        (setInitialImage i s).pendingInitialIndex = s.pendingInitialIndex)) ∧
    (∀ p, s.pendingInitialIndex = some p →
      s.textures.getD 0 none ≠ none → s.textures.getD 1 none ≠ none →
      s.displacementTexture ≠ none → s.material = none →
      (listGet s.textures p).isSome = true →
      (onTexturesLoaded s).pendingInitialIndex = none ∧
      (onTexturesLoaded s).currentIndex
        = max 0 (min p ((s.images.length : ℤ) - 1))) := by
  refine ⟨?_, ?_, ?_, ?_⟩
  · intro hne
    have hL : 1 ≤ (s.images.length : ℤ) := by
      have := List.length_pos.mpr hne
      omega
    constructor <;> omega
  · intro u hm hne hts
    rw [setInitialImage_ready_eq i s (by rw [hm]; rfl) hne hts]
    have h := applyInitialImage_ready
        (max 0 (min i ((s.images.length : ℤ) - 1)))
        { s with currentIndex := max 0 (min i ((s.images.length : ℤ) - 1)) }
        u hm hts
    simp only [clamp_idem] at h
    exact ⟨h.1, h.2.1, h.2.2.1, h.2.2.2.1, h.2.2.2.2.1⟩
  · intro h
    constructor
    · intro hpf
      simp only [setInitialImage]
      rw [if_neg (fun hc => h hc), if_pos hpf]
    · intro hpf
      have hnp : ¬ pendingFalsy s.pendingInitialIndex = true := by
        simp [hpf]
      simp only [setInitialImage]
      rw [if_neg (fun hc => h hc), if_neg hnp]
  · intro p hp h0 h1 hdt hm htp
    have hcond : ¬(s.textures.getD 0 none = none ∨ s.textures.getD 1 none = none ∨
        s.displacementTexture = none ∨ s.material.isSome = true) := by
      intro hc
      rcases hc with hc | hc | hc | hc
      · exact h0 hc
      · exact h1 hc
      · exact hdt hc
      · rw [hm] at hc
        exact Bool.noConfusion hc
    simp only [onTexturesLoaded]
    rw [if_neg hcond]
    simp only [hp]
    refine ⟨?_, ?_⟩
    · trivial
    · exact applyInitialImage_currentIndex_ready p _ rfl htp

/-- Witness for the amended C9: on a fresh engine (material not ready,
no pending request) `setInitialImage 1` records the clamped pending
request `1`. -/
theorem setInitialImage_amended_witness :
    (setInitialImage 1
        (freshEngine ["a.jpg", "b.jpg", "c.jpg"] ["d.png"])).pendingInitialIndex
      = some 1 := by
  have h := ((setInitialImage_amended
      (freshEngine ["a.jpg", "b.jpg", "c.jpg"] ["d.png"]) 1).2.2.1
      (by decide)).1 (by decide)
  exact h.trans (by decide)

end ScrollDistortion
